import Mathlib

/-!
Verification of the trueky upload-and-submit workflow.

The embedding models:
* `uploadFile` (src/utils/uploadFile.ts): storage-path construction
  `directory/uuid.ext` where `ext` is the result of the JavaScript
  `file.name.split(".").pop()`, the write to the object store, and the
  public-URL construction.
* the New-Product page controller (src/pages/nuevo-producto.tsx):
  `getServerSideProps`, `onSubmit`, and the `createProductMutation`
  success/error handlers.
* the Home page controller: `getServerSideProps`.

Strings are modelled as `List Char` (`JStr`), so that the JavaScript
`split`/`pop` semantics can be embedded character by character.
-/

/-- Strings of the embedded program, as lists of characters. -/
abbrev JStr := List Char

/-- Conversion from a Lean string literal to the embedded string type. -/
def str (s : String) : JStr := s.data

/-- The character separating the unique identifier from the extension. -/
def dot : Char := '.'

/-- The path separator character. -/
def slash : Char := '/'

/-- JavaScript `s.split(sep)` for a one-character separator: splits `s`
at every occurrence of `c`.  Never returns the empty list; the empty
string splits to `[[]]`, matching JS where `"".split(".")` is `[""]`. -/
def jsSplit (c : Char) : List Char → List (List Char)
  | [] => [[]]
  | x :: xs =>
    if x = c then [] :: jsSplit c xs
    else
      match jsSplit c xs with
      | [] => [[x]]
      | r :: rs => (x :: r) :: rs

/-- JavaScript `arr.pop()` applied to the result of `split`: the last
segment.  `split` never returns `[]`, so the default is unreachable. -/
def lastSeg (c : Char) (s : List Char) : List Char :=
  (jsSplit c s).getLastD []

theorem jsSplit_ne_nil (c : Char) (s : List Char) : jsSplit c s ≠ [] := by
  cases s with
  | nil => simp [jsSplit]
  | cons x xs =>
    simp only [jsSplit]
    split
    · simp
    · split
      · simp
      · simp

/-- If the separator does not occur, `split` returns the whole string as
its single segment (JS: `"abc".split(".") === ["abc"]`). -/
theorem jsSplit_of_not_mem (c : Char) (s : List Char) (h : c ∉ s) :
    jsSplit c s = [s] := by
  induction s with
  | nil => rfl
  | cons x xs ih =>
    simp only [List.mem_cons, not_or] at h
    simp only [jsSplit, if_neg (Ne.symm h.1), ih h.2]

/-- The last segment of a dot-free name is the whole name. -/
theorem lastSeg_of_not_mem (c : Char) (s : List Char) (h : c ∉ s) :
    lastSeg c s = s := by
  simp [lastSeg, jsSplit_of_not_mem c s h]

/-- If the separator occurs at least twice worth of structure, `split`
has at least two segments. -/
theorem jsSplit_length_ge_two (c : Char) (s : List Char) (h : c ∈ s) :
    2 ≤ (jsSplit c s).length := by
  induction s with
  | nil => simp at h
  | cons x xs ih =>
    simp only [jsSplit]
    by_cases hx : x = c
    · simp only [if_pos hx, List.length_cons]
      have := List.length_pos.mpr (jsSplit_ne_nil c xs)
      omega
    · simp only [if_neg hx]
      have hmem : c ∈ xs := by
        rcases List.mem_cons.mp h with h1 | h2
        · exact absurd h1.symm hx
        · exact h2
      have h2 := ih hmem
      cases hsp : jsSplit c xs with
      | nil => exact absurd hsp (jsSplit_ne_nil c xs)
      | cons r rs =>
        rw [hsp] at h2
        simp only [List.length_cons] at h2 ⊢
        omega

/-- The last segment never contains the separator. -/
theorem not_mem_lastSeg (c : Char) (s : List Char) : c ∉ lastSeg c s := by
  induction s with
  | nil => simp [lastSeg, jsSplit]
  | cons x xs ih =>
    simp only [lastSeg, jsSplit] at ih ⊢
    cases hsp : jsSplit c xs with
    | nil => exact absurd hsp (jsSplit_ne_nil c xs)
    | cons r rs =>
      rw [hsp] at ih
      by_cases hx : x = c
      · rw [if_pos hx]
        simpa [List.getLastD_cons] using ih
      · rw [if_neg hx]
        cases rs with
        | nil =>
          simp only [List.getLastD_cons, List.getLastD_nil] at ih ⊢
          simp only [List.mem_cons, not_or]
          exact ⟨fun hc => hx hc.symm, ih⟩
        | cons r' rs' =>
          simpa [List.getLastD_cons] using ih

/-- Prepending a character keeps the last segment unchanged while the
separator still occurs further on. -/
theorem lastSeg_cons_of_mem (c x : Char) (xs : List Char) (h : c ∈ xs) :
    lastSeg c (x :: xs) = lastSeg c xs := by
  simp only [lastSeg, jsSplit]
  by_cases hx : x = c
  · rw [if_pos hx]
    cases hsp : jsSplit c xs with
    | nil => exact absurd hsp (jsSplit_ne_nil c xs)
    | cons r rs => simp [List.getLastD_cons]
  · rw [if_neg hx]
    cases hsp : jsSplit c xs with
    | nil => exact absurd hsp (jsSplit_ne_nil c xs)
    | cons r rs =>
      cases rs with
      | nil =>
        have h2 := jsSplit_length_ge_two c xs h
        rw [hsp] at h2
        simp at h2
      | cons r' rs' => simp [List.getLastD_cons]

/-- A leading separator followed by a separator-free tail: the last
segment is the tail. -/
theorem lastSeg_cons_sep_of_not_mem (c : Char) (xs : List Char) (h : c ∉ xs) :
    lastSeg c (c :: xs) = xs := by
  simp only [lastSeg, jsSplit, if_pos rfl, jsSplit_of_not_mem c xs h]
  simp [List.getLastD_cons]

/-- When the separator occurs in `s`, `s` decomposes as a prefix, the
separator, and the last segment: the last segment is exactly the
substring after the last occurrence of the separator. -/
theorem exists_decomp_lastSeg (c : Char) (s : List Char) (h : c ∈ s) :
    ∃ p, s = p ++ c :: lastSeg c s := by
  induction s with
  | nil => simp at h
  | cons x xs ih =>
    by_cases hmem : c ∈ xs
    · obtain ⟨p, hp⟩ := ih hmem
      refine ⟨x :: p, ?_⟩
      rw [lastSeg_cons_of_mem c x xs hmem]
      simpa using hp
    · have hx : x = c := by
        rcases List.mem_cons.mp h with h1 | h2
        · exact h1.symm
        · exact absurd h2 hmem
      refine ⟨[], ?_⟩
      rw [hx, lastSeg_cons_sep_of_not_mem c xs hmem]
      simp

/-- A file as the page controller holds it: a name and binary content. -/
structure JFile where
  name : JStr
  content : List Nat
deriving DecidableEq

/-- The storage path built by `uploadFile`
(src/utils/uploadFile.ts line 22):
`` `${directory}/${uuidv4()}.${file.name.split(".").pop()}` ``.
The generated identifier is passed explicitly: it embeds the value
returned by `uuidv4()` for this call. -/
def storagePath (directory uuid fileName : JStr) : JStr :=
  directory ++ slash :: (uuid ++ dot :: lastSeg dot fileName)

/-- The Object Storage Client's write (external collaborator, spec §6:
`write(path, bytes) -> {confirmedPath}`).  Firebase's `uploadBytes`
snapshot reports `metadata.fullPath` equal to the path of the reference
written, so the confirmed path is the path itself. -/
def storageWrite (path : JStr) (_bytes : List Nat) : JStr := path

/-- The public-URL prefix used on src/utils/uploadFile.ts line 28. -/
def googleStoragePrefix : JStr := str "https://storage.googleapis.com/"

/-- `uploadFile` (src/utils/uploadFile.ts): builds the storage path from
the directory, the freshly generated identifier and the file name,
writes the bytes, and returns
`https://storage.googleapis.com/{bucket}/{confirmedPath}`.
`bucket` embeds `env.NEXT_PUBLIC_FIREBASE_STORAGE_BUCKET`; `uuid` embeds
the value produced by `uuidv4()` during this call. -/
def uploadFile (bucket uuid : JStr) (file : JFile) (directory : JStr) : JStr :=
  let path := storagePath directory uuid file.name
  let filePath := storageWrite path file.content
  googleStoragePrefix ++ bucket ++ slash :: filePath

example : jsSplit dot (str "a.b.c") = [str "a", str "b", str "c"] := by decide
example : jsSplit dot (str "photo") = [str "photo"] := by decide
example : jsSplit dot (str "") = [[]] := by decide
example : lastSeg dot (str "img.png") = str "png" := by decide
example : lastSeg dot (str "photo") = str "photo" := by decide
example : storagePath (str "products") (str "u1") (str "a.png")
    = str "products/u1.png" := by decide
example : storagePath (str "products") (str "u1") (str "photo")
    = str "products/u1.photo" := by decide

/-!
## New-Product page controller (src/pages/nuevo-producto.tsx)

The React state of one page instance: the `files`, `loading` and
`fileError` `useState` hooks plus the react-hook-form field values
(`name`, `description`).
-/

/-- The two registered form fields of the new-product form. -/
structure FormFields where
  name : JStr
  description : JStr
deriving DecidableEq

/-- The form after `reset()`: no default values are configured, so the
fields return to empty. -/
def emptyFormFields : FormFields := { name := [], description := [] }

/-- The mutable view state of the New-Product page. -/
structure PageState where
  files : List JFile
  loading : Bool
  fileError : Option JStr
  form : FormFields
deriving DecidableEq

/-- The outcome of one `uploadFile` promise as observed by the join: it
either resolves with a URL or rejects with an error, at some completion
time.  The completion time orders when the promise settles relative to
the other concurrent uploads. -/
inductive UploadOutcome where
  | resolved (url : JStr) (completesAt : Nat)
  | rejected (err : JStr) (completesAt : Nat)
deriving DecidableEq

/-- JavaScript `Promise.all` over the upload promises: if every promise
resolves, it resolves with the values in the order the promises were
passed in (selection order), regardless of completion times; if any
promise rejects, the whole join rejects.  Which rejection reason wins
(the earliest to settle) is abstracted to `Unit`: no caller in the page
inspects it. -/
def promiseAll : List UploadOutcome → Except Unit (List JStr)
  | [] => .ok []
  | .resolved u _ :: rest =>
    match promiseAll rest with
    | .ok us => .ok (u :: us)
    | .error e => .error e
  | .rejected _ _ :: _ => .error ()

/-- The payload of `createProductMutation.mutate` (`{...data, images}`). -/
structure CreateProductInput where
  name : JStr
  description : JStr
  images : List JStr
deriving DecidableEq

/-- The file-error message set when submitting with no files
(src/pages/nuevo-producto.tsx line 107). -/
def atLeastOneImageMsg : JStr := str "Debes subir al menos una imagen"

/-- The directory passed to every `uploadFile` call on line 111. -/
def productsDirectory : JStr := str "products"

/-- What one run of `onSubmit` did: the resulting page state, the
`uploadFile` invocations it issued (file and directory), the
`products.create` mutation call if one was made, and whether the
`Promise.all` rejection propagated out of the handler uncaught. -/
structure SubmitTrace where
  state : PageState
  uploadCalls : List (JFile × JStr)
  createCall : Option CreateProductInput
  rejectedPropagated : Bool
deriving DecidableEq

/-- `onSubmit` (src/pages/nuevo-producto.tsx lines 102-118):
`setLoading(true)`; if the file list is empty, `setLoading(false)`,
set the file error and return; otherwise await
`Promise.all(files.map(file => uploadFile({file, directory: "products"})))`
and call `createProductMutation.mutate({...data, images})`.  There is no
try/catch: when the join rejects, the handler neither emits a toast nor
resets `loading`, and the rejection propagates.  `upload` gives the
outcome of each file's `uploadFile` promise. -/
def onSubmit (upload : JFile → UploadOutcome) (s : PageState)
    (data : FormFields) : SubmitTrace :=
  let s1 : PageState := { s with loading := true }
  if s1.files.length = 0 then
    { state := { s1 with loading := false, fileError := some atLeastOneImageMsg }
      uploadCalls := []
      createCall := none
      rejectedPropagated := false }
  else
    let calls := s1.files.map (fun f => (f, productsDirectory))
    match promiseAll (s1.files.map upload) with
    | .error _ =>
      { state := s1
        uploadCalls := calls
        createCall := none
        rejectedPropagated := true }
    | .ok images =>
      { state := s1
        uploadCalls := calls
        createCall := some { name := data.name
                             description := data.description
                             images := images }
        rejectedPropagated := false }

/-- User-visible side effects of the mutation callbacks: toast messages,
router navigations and analytics events, each as the list of payloads in
the order they were emitted. -/
structure Effects where
  toastSuccess : List JStr
  toastError : List JStr
  navigations : List JStr
  tracked : List JStr
deriving DecidableEq

/-- No side effect was emitted. -/
def noEffects : Effects :=
  { toastSuccess := [], toastError := [], navigations := [], tracked := [] }

/-- Success toast text (src/pages/nuevo-producto.tsx line 91). -/
def successToastMsg : JStr := str "Producto creado con éxito"

/-- Error toast text (src/pages/nuevo-producto.tsx line 98). -/
def errorToastMsg : JStr := str "Error al crear el producto"

/-- The route pushed after a successful creation (line 94). -/
def listingsRoute : JStr := str "/mis-productos"

/-- `createProductMutation`'s `onSuccess` handler (lines 88-95):
`setLoading(false)`, `mixpanel.track("Product created")`,
`toast.success(...)`, `setFiles([])`, `reset()`,
`router.push("/mis-productos")`. -/
def createOnSuccess (s : PageState) : PageState × Effects :=
  ({ s with loading := false, files := [], form := emptyFormFields },
   { toastSuccess := [successToastMsg]
     toastError := []
     navigations := [listingsRoute]
     tracked := [str "Product created"] })

/-- `createProductMutation`'s `onError` handler (lines 96-99):
`setLoading(false)`, `toast.error(...)`. -/
def createOnError (s : PageState) : PageState × Effects :=
  ({ s with loading := false },
   { toastSuccess := []
     toastError := [errorToastMsg]
     navigations := []
     tracked := [] })

/-- Whether the backend accepts or rejects the `products.create` call. -/
inductive CreateResult where
  | success
  | failure
deriving DecidableEq

/-- One whole submission: the `onSubmit` trace, the page state after any
mutation callback has run, and the side effects those callbacks emitted.
When `onSubmit` made no mutation call, no callback runs and no effect is
emitted. -/
structure FlowResult where
  trace : SubmitTrace
  finalState : PageState
  effects : Effects
deriving DecidableEq

/-- The submission flow end to end: run `onSubmit`; if it called
`mutate`, run the mutation's `onSuccess` or `onError` callback according
to the backend's answer. -/
def submitFlow (upload : JFile → UploadOutcome) (cr : CreateResult)
    (s : PageState) (data : FormFields) : FlowResult :=
  let t := onSubmit upload s data
  match t.createCall with
  | none => { trace := t, finalState := t.state, effects := noEffects }
  | some _ =>
    match cr with
    | .success =>
      { trace := t
        finalState := (createOnSuccess t.state).1
        effects := (createOnSuccess t.state).2 }
    | .failure =>
      { trace := t
        finalState := (createOnError t.state).1
        effects := (createOnError t.state).2 }

/-- The dropzone is disabled exactly when `loading` is set
(`<Dropzone ... disabled={loading}>`, line 158). -/
def dropzoneDisabled (s : PageState) : Bool := s.loading

/-- The submit button shows its loading (disabled) state exactly when
`loading` is set (`<Button size="lg" loading={loading} ...>`, line 195). -/
def submitButtonLoading (s : PageState) : Bool := s.loading

/-!
## Server-side session gates (both pages)
-/

/-- The authenticated user carried in the session (opaque payload). -/
structure SessionUser where
  payload : JStr
deriving DecidableEq

/-- A session as returned by `getServerAuthSession`. -/
structure JSession where
  user : SessionUser
deriving DecidableEq

/-- What a Next.js `getServerSideProps` returns here: either a redirect
instruction or the props used to render the page body. -/
inductive GSSPResult (P : Type) where
  | redirect (destination : JStr) (permanent : Bool)
  | props (p : P)
deriving DecidableEq

/-- `true` exactly when a page body would be rendered (props produced). -/
def GSSPResult.rendersBody {P : Type} : GSSPResult P → Bool
  | .redirect _ _ => false
  | .props _ => true

/-- `getServerSideProps` of the New-Product page
(src/pages/nuevo-producto.tsx lines 33-52): resolve the session; if
absent, redirect to "/ingresar" with `permanent: false`; otherwise
return the session's user as props.  `session` embeds the value of
`await getServerAuthSession(ctx)`. -/
def newProductGetServerSideProps (session : Option JSession) :
    GSSPResult SessionUser :=
  match session with
  | none => .redirect (str "/ingresar") false
  | some s => .props s.user

/-- `getServerSideProps` of the Home page (same gate, lines 20-39 of the
Home page source). -/
def homeGetServerSideProps (session : Option JSession) :
    GSSPResult SessionUser :=
  match session with
  | none => .redirect (str "/ingresar") false
  | some s => .props s.user

/-!
## Lemmas about the parallel join
-/

/-- If every upload in the list resolves, the join resolves with the
URLs in input order, whatever the completion times are. -/
theorem promiseAll_map_resolved (upload : JFile → UploadOutcome)
    (url : JFile → JStr) (time : JFile → Nat) (l : List JFile)
    (h : ∀ f ∈ l, upload f = .resolved (url f) (time f)) :
    promiseAll (l.map upload) = .ok (l.map url) := by
  induction l with
  | nil => rfl
  | cons f fs ih =>
    have hf := h f (List.mem_cons_self f fs)
    have hrest := ih (fun g hg => h g (List.mem_cons_of_mem f hg))
    simp only [List.map_cons, hf, promiseAll, hrest]

/-- If any upload in the list rejects, the join rejects. -/
theorem promiseAll_error_of_rejected_mem (outs : List UploadOutcome)
    (e : JStr) (t : Nat) (h : UploadOutcome.rejected e t ∈ outs) :
    promiseAll outs = .error () := by
  induction outs with
  | nil => simp at h
  | cons o os ih =>
    cases o with
    | rejected e' t' => rfl
    | resolved u' t' =>
      have hmem : UploadOutcome.rejected e t ∈ os := by
        rcases List.mem_cons.mp h with h1 | h2
        · exact absurd h1 (by simp)
        · exact h2
      simp only [promiseAll, ih hmem]

/-!
## Shared concrete fixtures for witnesses and counterexamples
-/

/-- A concrete file. -/
def wfile : JFile := { name := str "a.png", content := [1] }

/-- Concrete form data. -/
def wData : FormFields := { name := str "Silla", description := str "Una silla" }

/-- A page state holding one selected file. -/
def wStateOne : PageState :=
  { files := [wfile], loading := false, fileError := none, form := wData }

/-- A page state with no selected file. -/
def wStateEmpty : PageState :=
  { files := [], loading := false, fileError := none, form := wData }

/-- An upload environment in which every upload rejects. -/
def wUploadReject : JFile → UploadOutcome := fun _ => .rejected (str "boom") 0

/-!
## Claims
-/

/-- Claim C1: if any one of the concurrent uploads issued during
new-product submission fails, `products.create` is never called, and the
form field values and the file list are unchanged after the failure. -/
theorem c1_upload_failure_aborts_create (upload : JFile → UploadOutcome)
    (s : PageState) (data : FormFields) (f : JFile) (e : JStr) (t : Nat)
    (hf : f ∈ s.files) (hrej : upload f = .rejected e t) :
    (onSubmit upload s data).createCall = none ∧
    (onSubmit upload s data).state.form = s.form ∧
    (onSubmit upload s data).state.files = s.files := by
  have hne : ¬ s.files.length = 0 := by
    cases hl : s.files with
    | nil => rw [hl] at hf; simp at hf
    | cons a l => simp
  have hmem : UploadOutcome.rejected e t ∈ s.files.map upload := by
    rw [← hrej]
    exact List.mem_map_of_mem upload hf
  simp [onSubmit, hne, promiseAll_error_of_rejected_mem _ e t hmem]

theorem c1_witness :
    (onSubmit wUploadReject wStateOne wData).createCall = none ∧
    (onSubmit wUploadReject wStateOne wData).state.form = wStateOne.form ∧
    (onSubmit wUploadReject wStateOne wData).state.files = wStateOne.files :=
  c1_upload_failure_aborts_create wUploadReject wStateOne wData wfile
    (str "boom") 0 (by decide) rfl

/-- Claim C2: when every upload resolves, the images array passed to
`products.create` lists the URLs in the original selection order of the
files, whatever the completion times of the individual uploads are — the
result does not depend on the completion-time assignment at all. -/
theorem c2_images_follow_selection_order (upload : JFile → UploadOutcome)
    (url : JFile → JStr) (time : JFile → Nat) (s : PageState)
    (data : FormFields) (hne : s.files ≠ [])
    (hall : ∀ f ∈ s.files, upload f = .resolved (url f) (time f)) :
    (onSubmit upload s data).createCall =
      some { name := data.name
             description := data.description
             images := s.files.map url } := by
  have hlen : ¬ s.files.length = 0 := by
    cases hl : s.files with
    | nil => exact absurd hl hne
    | cons a l => simp
  simp [onSubmit, hlen, promiseAll_map_resolved upload url time s.files hall]

/-- Second concrete file. -/
def wf2 : JFile := { name := str "b.png", content := [2] }

/-- Third concrete file. -/
def wf3 : JFile := { name := str "c.png", content := [3] }

/-- Concrete URL per file. -/
def wUrl : JFile → JStr := fun f => str "https://cdn/" ++ f.name

/-- Concrete completion times: the second file's upload settles first. -/
def wTime : JFile → Nat := fun f => if f = wf2 then 0 else 5

/-- A page state holding three selected files in order. -/
def wStateThree : PageState :=
  { files := [wfile, wf2, wf3], loading := false, fileError := none
    form := wData }

/-- An upload environment in which every upload resolves, at the
completion time given by `wTime`. -/
def wUploadOk : JFile → UploadOutcome := fun f => .resolved (wUrl f) (wTime f)

theorem c2_witness :
    wTime wf2 < wTime wfile ∧ wTime wf2 < wTime wf3 ∧
    (onSubmit wUploadOk wStateThree wData).createCall =
      some { name := wData.name
             description := wData.description
             images := [wUrl wfile, wUrl wf2, wUrl wf3] } :=
  ⟨by decide, by decide,
    c2_images_follow_selection_order wUploadOk wUrl wTime wStateThree wData
      (by decide) (fun f _ => rfl)⟩

/-- Claim C3 as stated is false: for the dot-free file name "photo" the
generated storage path is "products/u1.photo" — the extension suffix
after the identifier is ".photo", neither absent nor empty, because
JavaScript `"photo".split(".").pop()` returns "photo" itself. -/
theorem c3_counterexample :
    dot ∉ str "photo" ∧
    storagePath (str "products") (str "u1") (str "photo")
      = str "products/u1.photo" ∧
    storagePath (str "products") (str "u1") (str "photo")
      ≠ str "products" ++ slash :: str "u1" ∧
    storagePath (str "products") (str "u1") (str "photo")
      ≠ str "products" ++ slash :: (str "u1" ++ [dot]) := by decide

/-- Claim C3 amended: for every file name without a ".", the generated
path is `directory/uuid.<wholeName>`: the dot is always present and the
suffix after it is the entire original file name, since
`split(".").pop()` on a dot-free name yields the whole name. -/
theorem c3_no_dot_suffix_is_whole_name (d u name : JStr) (h : dot ∉ name) :
    storagePath d u name = d ++ slash :: (u ++ dot :: name) := by
  simp [storagePath, lastSeg_of_not_mem dot name h]

theorem c3_witness :
    storagePath (str "products") (str "u1") (str "photo")
      = str "products" ++ slash :: (str "u1" ++ dot :: str "photo") :=
  c3_no_dot_suffix_is_whole_name (str "products") (str "u1") (str "photo")
    (by decide)

/-- Claim C4 as stated is false: when the single upload of this
submission rejects, no toast of any kind is emitted — `onSubmit` has no
catch around the join, and the mutation's `onError` (holder of the only
failure toast) never runs because `mutate` is never called. -/
theorem c4_counterexample :
    wUploadReject wfile = .rejected (str "boom") 0 ∧
    (submitFlow wUploadReject .success wStateOne wData).effects = noEffects ∧
    (submitFlow wUploadReject .success wStateOne wData).trace.rejectedPropagated
      = true := by decide

/-- Claim C4 amended: an upload failure aborts the batch —
`products.create` is never called — and preserves the form and file
state for retry, but the failure is not surfaced as a toast: no side
effect is emitted and the rejection propagates out of the handler
uncaught. -/
theorem c4_upload_failure_is_silent (upload : JFile → UploadOutcome)
    (cr : CreateResult) (s : PageState) (data : FormFields)
    (f : JFile) (e : JStr) (t : Nat)
    (hf : f ∈ s.files) (hrej : upload f = .rejected e t) :
    (submitFlow upload cr s data).trace.createCall = none ∧
    (submitFlow upload cr s data).effects = noEffects ∧
    (submitFlow upload cr s data).finalState.form = s.form ∧
    (submitFlow upload cr s data).finalState.files = s.files ∧
    (submitFlow upload cr s data).trace.rejectedPropagated = true := by
  have hne : ¬ s.files.length = 0 := by
    cases hl : s.files with
    | nil => rw [hl] at hf; simp at hf
    | cons a l => simp
  have hmem : UploadOutcome.rejected e t ∈ s.files.map upload := by
    rw [← hrej]
    exact List.mem_map_of_mem upload hf
  simp [submitFlow, onSubmit, hne,
    promiseAll_error_of_rejected_mem _ e t hmem]

theorem c4_witness :
    (submitFlow wUploadReject .failure wStateOne wData).trace.createCall
      = none ∧
    (submitFlow wUploadReject .failure wStateOne wData).effects = noEffects ∧
    (submitFlow wUploadReject .failure wStateOne wData).finalState.form
      = wStateOne.form ∧
    (submitFlow wUploadReject .failure wStateOne wData).finalState.files
      = wStateOne.files ∧
    (submitFlow wUploadReject .failure wStateOne wData).trace.rejectedPropagated
      = true :=
  c4_upload_failure_is_silent wUploadReject .failure wStateOne wData wfile
    (str "boom") 0 (by decide) rfl

/-- Claim C5: submitting the form while the selected-file list is empty
issues no upload call and no `products.create` call, surfaces the
"at least one image" error message, and clears the loading flag. -/
theorem c5_empty_files_no_network (upload : JFile → UploadOutcome)
    (s : PageState) (data : FormFields) (h : s.files = []) :
    (onSubmit upload s data).uploadCalls = [] ∧
    (onSubmit upload s data).createCall = none ∧
    (onSubmit upload s data).state.fileError = some atLeastOneImageMsg ∧
    (onSubmit upload s data).state.loading = false := by
  simp [onSubmit, h]

theorem c5_witness :
    (onSubmit wUploadReject wStateEmpty wData).uploadCalls = [] ∧
    (onSubmit wUploadReject wStateEmpty wData).createCall = none ∧
    (onSubmit wUploadReject wStateEmpty wData).state.fileError
      = some atLeastOneImageMsg ∧
    (onSubmit wUploadReject wStateEmpty wData).state.loading = false :=
  c5_empty_files_no_network wUploadReject wStateEmpty wData rfl

/-- Claim C6: an unauthenticated request (session resolution yields
nothing) to either page returns a redirect to "/ingresar" with
`permanent := false`, and no page body is rendered (no props). -/
theorem c6_unauthenticated_redirect :
    newProductGetServerSideProps none
      = GSSPResult.redirect (str "/ingresar") false ∧
    homeGetServerSideProps none
      = GSSPResult.redirect (str "/ingresar") false ∧
    (newProductGetServerSideProps none).rendersBody = false ∧
    (homeGetServerSideProps none).rendersBody = false :=
  ⟨rfl, rfl, rfl, rfl⟩

/-- Claim C7: for every file name containing a ".", the generated path
is `directory/uuid.ext` where `ext` is the substring after the last "."
of the name: the name decomposes as `p ++ "." ++ ext` with `ext`
dot-free. -/
theorem c7_ext_is_substring_after_last_dot (d u name : JStr)
    (h : dot ∈ name) :
    ∃ p ext, name = p ++ dot :: ext ∧ dot ∉ ext ∧
      storagePath d u name = d ++ slash :: (u ++ dot :: ext) := by
  obtain ⟨p, hp⟩ := exists_decomp_lastSeg dot name h
  exact ⟨p, lastSeg dot name, hp, not_mem_lastSeg dot name, rfl⟩

theorem c7_witness :
    ∃ p ext, str "img.tar.png" = p ++ dot :: ext ∧ dot ∉ ext ∧
      storagePath (str "products") (str "u1") (str "img.tar.png")
        = str "products" ++ slash :: (str "u1" ++ dot :: ext) :=
  c7_ext_is_substring_after_last_dot (str "products") (str "u1")
    (str "img.tar.png") (by decide)

/-- Claim C8: the create mutation's success handler clears the file
list, resets the form fields, emits exactly one success toast, and
navigates exactly once, to "/mis-productos". -/
theorem c8_success_resets_and_navigates_once (s : PageState) :
    (createOnSuccess s).1.files = [] ∧
    (createOnSuccess s).1.form = emptyFormFields ∧
    (createOnSuccess s).2.toastSuccess = [successToastMsg] ∧
    (createOnSuccess s).2.navigations = [listingsRoute] ∧
    (createOnSuccess s).2.navigations.length = 1 :=
  ⟨rfl, rfl, rfl, rfl, rfl⟩

/-- Two upload calls against the same bucket and directory produce the
same URL only if they drew the same identifier, provided the drawn
identifiers have equal length (uuidv4 always yields 36-character
identifiers). -/
theorem uploadFile_uuid_inj (bucket d u1 u2 : JStr) (f1 f2 : JFile)
    (hlen : u1.length = u2.length)
    (heq : uploadFile bucket u1 f1 d = uploadFile bucket u2 f2 d) :
    u1 = u2 := by
  simp only [uploadFile, storagePath, storageWrite, List.append_assoc] at heq
  replace heq := List.append_cancel_left heq
  replace heq := List.append_cancel_left heq
  simp only [List.cons.injEq, true_and] at heq
  replace heq := List.append_cancel_left heq
  simp only [List.cons.injEq, true_and] at heq
  exact (List.append_inj heq hlen).1

/-- Claim C9: two calls `upload(f1, d)` and `upload(f2, d)`, even on
files with identical content and name, return different URLs whenever
the identifiers generated by the two calls differ — and `uuidv4`
generates fresh random identifiers of fixed length 36, independent of
the file's content and name. -/
theorem c9_distinct_uuids_distinct_urls (bucket d u1 u2 : JStr)
    (f1 f2 : JFile) (hlen : u1.length = u2.length) (hne : u1 ≠ u2) :
    uploadFile bucket u1 f1 d ≠ uploadFile bucket u2 f2 d :=
  fun heq => hne (uploadFile_uuid_inj bucket d u1 u2 f1 f2 hlen heq)

theorem c9_witness :
    uploadFile (str "bkt") (str "ua") wfile (str "products")
      ≠ uploadFile (str "bkt") (str "ub") wfile (str "products") :=
  c9_distinct_uuids_distinct_urls (str "bkt") (str "products")
    (str "ua") (str "ub") wfile wfile rfl (by decide)

/-- Claim C10: when any one of the concurrent uploads rejects, the
loading flag set at the start of submission is never cleared on that
path — no handler resets it and the rejection propagates out of the
submit handler — leaving the submit button and the dropzone disabled. -/
theorem c10_loading_stuck_on_upload_failure (upload : JFile → UploadOutcome)
    (cr : CreateResult) (s : PageState) (data : FormFields)
    (f : JFile) (e : JStr) (t : Nat)
    (hf : f ∈ s.files) (hrej : upload f = .rejected e t) :
    (submitFlow upload cr s data).finalState.loading = true ∧
    (submitFlow upload cr s data).trace.rejectedPropagated = true ∧
    submitButtonLoading (submitFlow upload cr s data).finalState = true ∧
    dropzoneDisabled (submitFlow upload cr s data).finalState = true := by
  have hne : ¬ s.files.length = 0 := by
    cases hl : s.files with
    | nil => rw [hl] at hf; simp at hf
    | cons a l => simp
  have hmem : UploadOutcome.rejected e t ∈ s.files.map upload := by
    rw [← hrej]
    exact List.mem_map_of_mem upload hf
  simp [submitFlow, onSubmit, submitButtonLoading, dropzoneDisabled, hne,
    promiseAll_error_of_rejected_mem _ e t hmem]

theorem c10_witness :
    (submitFlow wUploadReject .success wStateOne wData).finalState.loading
      = true ∧
    (submitFlow wUploadReject .success wStateOne wData).trace.rejectedPropagated
      = true ∧
    submitButtonLoading (submitFlow wUploadReject .success wStateOne wData).finalState
      = true ∧
    dropzoneDisabled (submitFlow wUploadReject .success wStateOne wData).finalState
      = true :=
  c10_loading_stuck_on_upload_failure wUploadReject .success wStateOne wData
    wfile (str "boom") 0 (by decide) rfl
